import Mathlib

/-!
# Verification of the conversation-orchestration core of `core-stitch`

This file is a shallow embedding, in Lean 4, of the conversation
orchestration logic of the `UXArchitectAgent` worker (file
`src/unnamed/part_000` of the repository, referred to below as "agent
source") together with the `/api/chat` HTTP route of `src/src/index.ts`.

Modelling conventions:
* Machine state (`this.state` and the agent's SQLite tables) is passed
  explicitly: `AgentState` mirrors the `AgentState` interface, `Store`
  mirrors the two tables `agent_messages` and `agent_threads`, with rows
  kept in insertion order.
* External effects consumed during one `chat()` turn — `crypto.randomUUID()`
  results, `Date.now()` readings, the two OpenAI completion calls and the
  outcome of each awaited tool invocation — are supplied by a `ChatEnv`
  record; a throwing `await` is an `Except.error` carrying the thrown
  error's message string.
* `JSON.stringify` / `JSON.parse` of the `tool_calls` column round-trip the
  stored record faithfully, so the serialized column is modelled by the
  value itself (`Option (List ToolCall)`).
* JavaScript string truthiness (`if (x)` on `string | null | undefined`)
  is modelled by `strTruthy`, and `x || null` / `x || undefined` by
  `strNorm`.
* The SQL query `ORDER BY created_at ASC` over rows produced by sequential
  inserts is modelled as a stable sort (`List.mergeSort`) of the insertion
  sequence, so equal timestamps keep insertion order.
-/

/-- Message role, agent source line 29: `"user" | "assistant" | "system" | "tool"`. -/
inductive Role where
  | user
  | assistant
  | system
  | tool
deriving DecidableEq, Repr

/-- One tool call requested by the model
(`OpenAI.Chat.Completions.ChatCompletionMessageToolCall`): an id plus the
called function's name and JSON-encoded arguments. -/
structure ToolCall where
  id : String
  name : String
  arguments : String
deriving DecidableEq, Repr

/-- The `Message` interface, agent source lines 27-34. -/
structure Message where
  id : String
  role : Role
  content : String
  toolCalls : Option (List ToolCall)
  toolCallId : Option String
  createdAt : Nat
deriving DecidableEq, Repr

/-- One row of the `agent_messages` table (agent source lines 107-115).
`thread_id` is kept as `Option String` because the insert writes
`this.state.threadId`, which is nullable in the state type. The
`tool_calls` TEXT column holds `JSON.stringify` of the calls; since
stringify/parse round-trips these records, the column is modelled by the
deserialized value. -/
structure StoredRow where
  id : String
  thread_id : Option String
  role : Role
  content : String
  tool_calls : Option (List ToolCall)
  tool_call_id : Option String
  created_at : Nat
deriving DecidableEq, Repr

/-- One row of the `agent_threads` table (agent source lines 118-125). -/
structure ThreadRow where
  id : String
  title : Option String
  created_at : Nat
  updated_at : Nat
deriving DecidableEq, Repr

/-- The agent's SQLite storage: both tables, rows in insertion order. -/
structure Store where
  agent_messages : List StoredRow
  agent_threads : List ThreadRow
deriving DecidableEq, Repr

/-- The `AgentState` interface, agent source lines 18-22. -/
structure AgentState where
  threadId : Option String
  systemPrompt : String
  conversationHistory : List Message
deriving DecidableEq, Repr

/-- JavaScript truthiness of a `string | null | undefined` value:
`null`/`undefined` and the empty string are falsy. -/
def strTruthy : Option String → Bool
  | none => false
  | some s => s ≠ ""

/-- The JavaScript idiom `x || null` (equally `x || undefined`) on a
`string | null | undefined` value: empty string collapses to `none`. -/
def strNorm : Option String → Option String
  | none => none
  | some s => if s = "" then none else some s

/-- JSON string escaping of `"` and `\` as performed by `JSON.stringify`
on a string value (control-character escapes do not arise here). -/
def jsonEscape (s : String) : String :=
  s.foldl
    (fun acc c =>
      acc ++ (if c = '\\' then "\\\\" else if c = '"' then "\\\"" else String.singleton c))
    ""

/-- Model of `JSON.stringify({ error: msg })`, the structured error payload built in
the tool-failure catch block (agent source line 412). -/
def jsonStringifyErrorObj (msg : String) : String :=
  "\x7b\"error\":\"" ++ jsonEscape msg ++ "\"\x7d"

/-- The row inserted by `persistMessage` (agent source lines 284-295):
columns `(id, thread_id, role, content, tool_calls, tool_call_id,
created_at)` with `tool_calls` = `message.toolCalls ? JSON.stringify(...) :
null` and `tool_call_id` = `message.toolCallId || null`. -/
def rowOf (threadId : Option String) (m : Message) : StoredRow :=
  { id := m.id
    thread_id := threadId
    role := m.role
    content := m.content
    tool_calls := m.toolCalls
    tool_call_id := strNorm m.toolCallId
    created_at := m.createdAt }

/-- Model of `persistMessage` (agent source lines 283-302): inserts the message row
for the current `this.state.threadId`, then bumps the owning thread row's
`updated_at` to a fresh `Date.now()` reading (`now`). -/
def persistMessage (st : AgentState) (db : Store) (now : Nat) (m : Message) : Store :=
  { agent_messages := db.agent_messages ++ [rowOf st.threadId m]
    agent_threads :=
      db.agent_threads.map fun t =>
        if some t.id = st.threadId then { t with updated_at := now } else t }

/-- Model of `createThread` (agent source lines 210-226): inserts a thread row with
`created_at = updated_at = now` and `title || null`, then resets the state
to the new thread with an empty history. -/
def createThread (st : AgentState) (db : Store) (threadId : String) (now : Nat)
    (title : Option String) : AgentState × Store :=
  ({ st with threadId := some threadId, conversationHistory := [] },
   { db with
      agent_threads :=
        db.agent_threads ++ [{ id := threadId, title := strNorm title,
                               created_at := now, updated_at := now }] })

/-- Reconstruction of one `Message` from a stored row in `loadThread`
(agent source lines 253-260): `toolCalls` = `tool_calls ? JSON.parse(...) :
undefined`, `toolCallId` = `tool_call_id || undefined`. -/
def rowToMessage (r : StoredRow) : Message :=
  { id := r.id
    role := r.role
    content := r.content
    toolCalls := r.tool_calls
    toolCallId := strNorm r.tool_call_id
    createdAt := r.created_at }

/-- The query `SELECT * FROM agent_messages WHERE thread_id = ? ORDER BY
created_at ASC` (agent source lines 248-251), modelled as a stable sort of
the insertion-ordered rows matching the thread. -/
def messagesFor (db : Store) (threadId : String) : List StoredRow :=
  (db.agent_messages.filter fun r => r.thread_id == some threadId).mergeSort
    fun a b => a.created_at ≤ b.created_at

/-- Model of `loadThread` (agent source lines 231-269): if no thread row matches,
return `false` leaving the state unchanged; otherwise replace the state
wholesale with the reconstructed history of the thread. -/
def loadThread (st : AgentState) (db : Store) (threadId : String) : AgentState × Bool :=
  if (db.agent_threads.filter fun t => t.id == threadId).length = 0 then
    (st, false)
  else
    let conversationHistory := (messagesFor db threadId).map rowToMessage
    ({ st with threadId := some threadId, conversationHistory := conversationHistory },
     true)

/-- The rows persisted for one thread, in insertion order (used to state
the history/store synchronisation invariant). -/
def persistedFor (db : Store) (threadId : Option String) : List StoredRow :=
  db.agent_messages.filter fun r => r.thread_id == threadId

/-- One tool exposed by an MCP server entry (agent source lines 52-56). -/
structure MCPToolInfo where
  name : String
  description : Option String
  inputSchema : String
deriving DecidableEq, Repr

/-- The fields of `MCPServerInfo` consulted by `getMcpTools` (agent source
lines 50-60); the `client` capability is modelled through the tool-outcome
oracle of `ChatEnv` instead. -/
structure MCPServerInfo where
  state : Option String
  tools : Option (List MCPToolInfo)
deriving DecidableEq, Repr

/-- An OpenAI tool descriptor (`type: "function"` with name, description,
parameters) as built by `getMcpTools` (agent source lines 192-199). -/
structure ChatCompletionTool where
  name : String
  description : String
  parameters : String
deriving DecidableEq, Repr

/-- Model of `getMcpTools` (agent source lines 181-205): every tool of every
`ready` server that exposes a tool list, with `description || ""`. -/
def getMcpTools (servers : List MCPServerInfo) : List ChatCompletionTool :=
  servers.foldl
    (fun acc server =>
      if server.state = some "ready" ∧ server.tools.isSome then
        acc ++ (server.tools.getD []).map fun t =>
          { name := t.name, description := t.description.getD "",
            parameters := t.inputSchema }
      else acc)
    []

/-- One entry of the projected request payload
(`OpenAI.Chat.Completions.ChatCompletionMessageParam` as actually built at
agent source lines 333-355): either the system prompt, a tool result
carrying a `tool_call_id`, an assistant message carrying tool calls, or a
plain role/content pair. The `plain` constructor keeps the message's
runtime role: the `as "user" | "assistant" | "system"` cast in the source
is compile-time only. -/
inductive ChatParam where
  | system (content : String)
  | toolResult (content : String) (tool_call_id : String)
  | assistantWithTools (content : String) (tool_calls : List ToolCall)
  | plain (role : Role) (content : String)
deriving DecidableEq, Repr

/-- Projection of one history entry (agent source lines 335-354, repeated
verbatim at lines 426-445): a `tool`-role message with a truthy
`toolCallId` becomes a tool entry, an `assistant` message with `toolCalls`
present keeps its calls, everything else falls through to a plain
role/content entry. -/
def projectMessage (m : Message) : ChatParam :=
  if m.role = Role.tool ∧ strTruthy m.toolCallId then
    ChatParam.toolResult m.content (m.toolCallId.getD "")
  else if m.role = Role.assistant ∧ m.toolCalls.isSome then
    ChatParam.assistantWithTools m.content (m.toolCalls.getD [])
  else
    ChatParam.plain m.role m.content

/-- The full projected payload: system prompt first (agent source line
334), then every history entry in stored order. -/
def projectHistory (systemPrompt : String) (history : List Message) : List ChatParam :=
  ChatParam.system systemPrompt :: history.map projectMessage

/-- The message of `completion.choices[0]`: nullable text content plus an
optional list of tool calls. -/
structure CompletionMessage where
  content : Option String
  tool_calls : Option (List ToolCall)
deriving DecidableEq, Repr

/-- One request to `openai.chat.completions.create` as assembled in
`chat()`: model name, projected messages, and the optional `tools` /
`tool_choice` fields (`undefined` = `none` when omitted). -/
structure ChatRequest where
  model : String
  messages : List ChatParam
  tools : Option (List ChatCompletionTool)
  tool_choice : Option String
deriving DecidableEq, Repr

/-- Shape of `chat()`'s successful return value (agent source lines 468-471);
`threadId` is `this.state.threadId!`. -/
structure ChatResult where
  response : String
  threadId : String
deriving DecidableEq, Repr

/-- The external effects consumed by one `chat()` turn, one field per
source-code site: `crypto.randomUUID()` results, `Date.now()` readings,
the two completion calls (an `Except.error` is a thrown/rejected call,
carrying the error message), and the outcome of each awaited tool
invocation. `toolOutcome i` models the whole `try` body for the `i`-th
tool call (agent source lines 389-395): `Except.ok s` is a completed
invocation whose result serializes (via `JSON.stringify`) to `s`;
`Except.error e` is any throw — `JSON.parse` of the arguments failing,
`Tool not found: ...` from `executeMcpTool`, or the provider call
rejecting — with `e` the caught error's message. -/
structure ChatEnv where
  newThreadId : String
  newThreadNow : Nat
  mcpServers : List MCPServerInfo
  userId : String
  userNow : Nat
  userPersistNow : Nat
  completion1 : Except String CompletionMessage
  asstId : String
  asstNow : Nat
  asstPersistNow : Nat
  toolId : Nat → String
  toolNow : Nat → Nat
  toolPersistNow : Nat → Nat
  toolOutcome : Nat → Except String String
  completion2 : Except String CompletionMessage
  finalId : String
  finalNow : Nat
  finalPersistNow : Nat

/-- The user message built at agent source lines 320-325. -/
def userMessageOf (env : ChatEnv) (userMessage : String) : Message :=
  { id := env.userId, role := Role.user, content := userMessage,
    toolCalls := none, toolCallId := none, createdAt := env.userNow }

/-- The assistant message carrying the first completion's tool calls,
built at agent source lines 375-381. -/
def assistantToolMsgOf (env : ChatEnv) (responseContent : String)
    (toolCalls : List ToolCall) : Message :=
  { id := env.asstId, role := Role.assistant, content := responseContent,
    toolCalls := some toolCalls, toolCallId := none, createdAt := env.asstNow }

/-- The final assistant message, built at agent source lines 457-462. -/
def finalMsgOf (env : ChatEnv) (responseContent : String) : Message :=
  { id := env.finalId, role := Role.assistant, content := responseContent,
    toolCalls := none, toolCallId := none, createdAt := env.finalNow }

/-- The `tool`-role message produced for the `i`-th tool call: on success
the serialized result (agent source lines 397-403), on failure the
structured `{error: ...}` payload (lines 409-415); both carry
`toolCallId = toolCall.id`. -/
def toolMsg (env : ChatEnv) (i : Nat) (tc : ToolCall) : Message :=
  match env.toolOutcome i with
  | Except.ok s =>
      { id := env.toolId i, role := Role.tool, content := s,
        toolCalls := none, toolCallId := some tc.id, createdAt := env.toolNow i }
  | Except.error e =>
      { id := env.toolId i, role := Role.tool, content := jsonStringifyErrorObj e,
        toolCalls := none, toolCallId := some tc.id, createdAt := env.toolNow i }

/-- The tool-result messages for the calls `l`, the first invoked with
outcome index `i`. -/
def toolMsgs (env : ChatEnv) : List ToolCall → Nat → List Message
  | [], _ => []
  | tc :: rest, i => toolMsg env i tc :: toolMsgs env rest (i + 1)

/-- The `for (const toolCall of assistantMessage.tool_calls)` loop (agent
source lines 388-421): for each call in order, build the success or error
tool message, append it to the history and persist it, then move to the
next call. The try and catch arms both end in the same append/persist
pair, so they are factored through `toolMsg`. -/
def runToolCalls (env : ChatEnv) :
    AgentState → Store → List ToolCall → Nat → AgentState × Store
  | st, db, [], _ => (st, db)
  | st, db, tc :: rest, i =>
      let m := toolMsg env i tc
      let st' := { st with conversationHistory := st.conversationHistory ++ [m] }
      let db' := persistMessage st' db (env.toolPersistNow i) m
      runToolCalls env st' db' rest (i + 1)

/-- Result of one `chat()` turn: the state and store after all side
effects (also on a throwing turn — mutations made before the throw
remain), the completion requests issued in order, and the returned value
or the propagated error. -/
structure ChatOutcome where
  state : AgentState
  store : Store
  requests : List ChatRequest
  result : Except String ChatResult
deriving Repr

/-- The turn's closing block (agent source lines 456-471), shared by the
no-tool and tool branches: append and persist the final assistant message
and return `{response, threadId: this.state.threadId!}`. -/
def finishTurn (env : ChatEnv) (st : AgentState) (db : Store)
    (requests : List ChatRequest) (responseContent : String) : ChatOutcome :=
  let finalAssistantMsg := finalMsgOf env responseContent
  let st' := { st with
    conversationHistory := st.conversationHistory ++ [finalAssistantMsg] }
  let db' := persistMessage st' db env.finalPersistNow finalAssistantMsg
  { state := st'
    store := db'
    requests := requests
    result := Except.ok { response := responseContent,
                          threadId := st'.threadId.getD "" } }

/-- Model of `if (!this.state.threadId) await this.createThread()` (agent source
lines 312-314); JavaScript truthiness makes an empty-string thread id
falsy. -/
def ensureThread (st : AgentState) (db : Store) (env : ChatEnv) : AgentState × Store :=
  if strTruthy st.threadId then (st, db)
  else createThread st db env.newThreadId env.newThreadNow none

/-- The state and store after the entry block of `chat()` (agent source
lines 311-330): thread ensured, then the user message appended to the
history and persisted. -/
def afterUser (st0 : AgentState) (db0 : Store) (env : ChatEnv)
    (userMessage : String) : AgentState × Store :=
  let s1 := ensureThread st0 db0 env
  let userMsg := userMessageOf env userMessage
  let st2 := { s1.1 with conversationHistory := s1.1.conversationHistory ++ [userMsg] }
  (st2, persistMessage st2 s1.2 env.userPersistNow userMsg)

/-- The first completion request (agent source lines 332-367): projected
history with the MCP tools attached when any are available (`undefined`
otherwise), `tool_choice: "auto"` under the same condition. -/
def chatReq1 (st0 : AgentState) (db0 : Store) (env : ChatEnv)
    (userMessage : String) : ChatRequest :=
  let st2 := (afterUser st0 db0 env userMessage).1
  let tools := getMcpTools env.mcpServers
  { model := "gpt-4-turbo-preview"
    messages := projectHistory st2.systemPrompt st2.conversationHistory
    tools := if tools.length > 0 then some tools else none
    tool_choice := if tools.length > 0 then some "auto" else none }

/-- The state and store after the assistant message carrying the tool
calls is appended and persisted (agent source lines 374-385). -/
def afterAssistant (env : ChatEnv) (st2 : AgentState) (db2 : Store)
    (responseContent : String) (toolCalls : List ToolCall) : AgentState × Store :=
  let assistantMsg := assistantToolMsgOf env responseContent toolCalls
  let st3 := { st2 with conversationHistory := st2.conversationHistory ++ [assistantMsg] }
  (st3, persistMessage st3 db2 env.asstPersistNow assistantMsg)

/-- The second completion request (agent source lines 424-451): the
re-projected history, with no `tools` and no `tool_choice` field. -/
def chatReq2 (st4 : AgentState) : ChatRequest :=
  { model := "gpt-4-turbo-preview"
    messages := projectHistory st4.systemPrompt st4.conversationHistory
    tools := none
    tool_choice := none }

/-- Model of `chat(userMessage)` (agent source lines 307-472): ensure a thread,
append and persist the user message, project the history, issue the first
completion; on tool calls, append/persist the assistant message, run the
tool loop, re-project and issue a second completion without tools; finally
append/persist the final assistant message and return. A failing
completion call propagates, leaving all mutations made so far in place. -/
def chat (st0 : AgentState) (db0 : Store) (env : ChatEnv) (userMessage : String) :
    ChatOutcome :=
  let s2 := afterUser st0 db0 env userMessage
  let req1 := chatReq1 st0 db0 env userMessage
  match env.completion1 with
  | Except.error e =>
      { state := s2.1, store := s2.2, requests := [req1], result := Except.error e }
  | Except.ok assistantMessage =>
    let responseContent := assistantMessage.content.getD ""
    match assistantMessage.tool_calls with
    | some toolCalls =>
        if toolCalls.length > 0 then
          let s3 := afterAssistant env s2.1 s2.2 responseContent toolCalls
          let s4 := runToolCalls env s3.1 s3.2 toolCalls 0
          let req2 := chatReq2 s4.1
          match env.completion2 with
          | Except.error e =>
              { state := s4.1, store := s4.2, requests := [req1, req2],
                result := Except.error e }
          | Except.ok followUp =>
              finishTurn env s4.1 s4.2 [req1, req2] (followUp.content.getD "")
        else
          finishTurn env s2.1 s2.2 [req1] responseContent
    | none => finishTurn env s2.1 s2.2 [req1] responseContent

/-- A sequence of `chat()` turns, each with its own external effects. -/
def chatSeq : AgentState → Store → List (ChatEnv × String) → AgentState × Store
  | st, db, [] => (st, db)
  | st, db, (env, m) :: rest =>
      let out := chat st db env m
      chatSeq out.state out.store rest

/-- Every turn of the sequence returns successfully. -/
def chatSeqOk : AgentState → Store → List (ChatEnv × String) → Prop
  | _, _, [] => True
  | st, db, (env, m) :: rest =>
      (chat st db env m).result.isOk ∧
      chatSeqOk (chat st db env m).state (chat st db env m).store rest

/-- The request body of `POST /api/chat` (`src/src/index.ts` line 111);
both fields may be absent. -/
structure ChatApiRequest where
  message : Option String
  threadId : Option String
deriving DecidableEq, Repr

/-- The JSON response of the `/api/chat` route: either the agent's
`{response, threadId}` or an `{error}` body with an HTTP status. -/
inductive ApiChatResponse where
  | ok (response : String) (threadId : String)
  | err (message : String) (status : Nat)
deriving DecidableEq, Repr

/-- The `/api/chat` route (`src/src/index.ts` lines 109-168) composed with
the agent's `/chat` handler (agent source lines 566-575): reject a falsy
`message` with a 400, otherwise load the requested thread when `threadId`
is truthy (its boolean result is ignored) and run `chat()`; a throwing
turn is caught and mapped to a 500. The D1 mirror writes after the agent
call do not affect the response and are not modelled. -/
def postApiChat (body : ChatApiRequest) (st : AgentState) (db : Store)
    (env : ChatEnv) : ApiChatResponse :=
  if ¬ strTruthy body.message then
    ApiChatResponse.err "Message is required" 400
  else
    let st1 :=
      if strTruthy body.threadId then (loadThread st db (body.threadId.getD "")).1
      else st
    let out := chat st1 db env (body.message.getD "")
    match out.result with
    | Except.ok r => ApiChatResponse.ok r.response r.threadId
    | Except.error _ => ApiChatResponse.err "Failed to process chat message" 500

/-! ## Helper lemmas -/

theorem toolMsgs_length (env : ChatEnv) (l : List ToolCall) (i : Nat) :
    (toolMsgs env l i).length = l.length := by
  induction l generalizing i with
  | nil => rfl
  | cons tc rest ih => simp [toolMsgs, ih]

theorem toolMsgs_cons (env : ChatEnv) (tc : ToolCall) (rest : List ToolCall)
    (i : Nat) :
    toolMsgs env (tc :: rest) i = toolMsg env i tc :: toolMsgs env rest (i + 1) := rfl

theorem toolMsgs_get? (env : ChatEnv) (l : List ToolCall) (k i : Nat)
    (hi : i < l.length) :
    (toolMsgs env l k)[i]? = some (toolMsg env (k + i) (l.get ⟨i, hi⟩)) := by
  induction l generalizing k i with
  | nil => exact absurd hi (Nat.not_lt_zero i)
  | cons tc rest ih =>
    cases i with
    | zero => simp [toolMsgs_cons]
    | succ j =>
      have hj : j < rest.length := Nat.lt_of_succ_lt_succ hi
      have h := ih (k + 1) j hj
      have hk : k + 1 + j = k + (j + 1) := by omega
      rw [hk] at h
      simp only [toolMsgs_cons, List.getElem?_cons_succ, List.get_eq_getElem,
        List.getElem_cons_succ]
      simpa using h

theorem persistMessage_messages (st : AgentState) (db : Store) (now : Nat)
    (m : Message) :
    (persistMessage st db now m).agent_messages =
      db.agent_messages ++ [rowOf st.threadId m] := rfl

theorem persistMessage_thread_ids (st : AgentState) (db : Store) (now : Nat)
    (m : Message) :
    (persistMessage st db now m).agent_threads.map (fun t => t.id) =
      db.agent_threads.map (fun t => t.id) := by
  simp only [persistMessage, List.map_map]
  apply List.map_congr_left
  intro t _
  by_cases h : some t.id = st.threadId <;> simp [h]

theorem runToolCalls_nil (env : ChatEnv) (st : AgentState) (db : Store) (i : Nat) :
    runToolCalls env st db [] i = (st, db) := rfl

theorem runToolCalls_cons (env : ChatEnv) (st : AgentState) (db : Store)
    (tc : ToolCall) (rest : List ToolCall) (i : Nat) :
    runToolCalls env st db (tc :: rest) i =
      runToolCalls env
        { st with conversationHistory := st.conversationHistory ++ [toolMsg env i tc] }
        (persistMessage
          { st with conversationHistory := st.conversationHistory ++ [toolMsg env i tc] }
          db (env.toolPersistNow i) (toolMsg env i tc))
        rest (i + 1) := rfl

/-- Full characterisation of the tool loop: the history gains exactly the
tool messages in call order, the store gains their rows (persisted under
the unchanged thread id), and the scalar state fields are untouched. -/
theorem runToolCalls_spec (env : ChatEnv) (st : AgentState) (db : Store)
    (l : List ToolCall) (i : Nat) :
    (runToolCalls env st db l i).1.conversationHistory =
        st.conversationHistory ++ toolMsgs env l i ∧
      (runToolCalls env st db l i).1.threadId = st.threadId ∧
      (runToolCalls env st db l i).1.systemPrompt = st.systemPrompt ∧
      (runToolCalls env st db l i).2.agent_messages =
        db.agent_messages ++ (toolMsgs env l i).map (rowOf st.threadId) ∧
      (runToolCalls env st db l i).2.agent_threads.map (fun t => t.id) =
        db.agent_threads.map (fun t => t.id) := by
  induction l generalizing st db i with
  | nil => simp [runToolCalls_nil, toolMsgs]
  | cons tc rest ih =>
    obtain ⟨h1, h2, h3, h4, h5⟩ := ih
      { st with conversationHistory := st.conversationHistory ++ [toolMsg env i tc] }
      (persistMessage
        { st with conversationHistory := st.conversationHistory ++ [toolMsg env i tc] }
        db (env.toolPersistNow i) (toolMsg env i tc))
      (i + 1)
    refine ⟨?_, ?_, ?_, ?_, ?_⟩
    · rw [runToolCalls_cons, h1]; simp [toolMsgs]
    · rw [runToolCalls_cons, h2]
    · rw [runToolCalls_cons, h3]
    · rw [runToolCalls_cons, h4, persistMessage_messages]
      simp [toolMsgs]
    · rw [runToolCalls_cons, h5, persistMessage_thread_ids]

/-- Branch characterisation: first completion call throws. -/
theorem chat_err1 (st0 : AgentState) (db0 : Store) (env : ChatEnv) (u : String)
    (e : String) (h : env.completion1 = Except.error e) :
    chat st0 db0 env u =
      { state := (afterUser st0 db0 env u).1
        store := (afterUser st0 db0 env u).2
        requests := [chatReq1 st0 db0 env u]
        result := Except.error e } := by
  simp only [chat, h]

/-- Branch characterisation: first completion succeeds with no
`tool_calls` field. -/
theorem chat_noTools (st0 : AgentState) (db0 : Store) (env : ChatEnv) (u : String)
    (cm : CompletionMessage) (h1 : env.completion1 = Except.ok cm)
    (h2 : cm.tool_calls = none) :
    chat st0 db0 env u =
      finishTurn env (afterUser st0 db0 env u).1 (afterUser st0 db0 env u).2
        [chatReq1 st0 db0 env u] (cm.content.getD "") := by
  simp only [chat, h1, h2]

/-- Branch characterisation: first completion succeeds with an empty
`tool_calls` list (the `length > 0` guard fails). -/
theorem chat_emptyTools (st0 : AgentState) (db0 : Store) (env : ChatEnv) (u : String)
    (cm : CompletionMessage) (h1 : env.completion1 = Except.ok cm)
    (h2 : cm.tool_calls = some []) :
    chat st0 db0 env u =
      finishTurn env (afterUser st0 db0 env u).1 (afterUser st0 db0 env u).2
        [chatReq1 st0 db0 env u] (cm.content.getD "") := by
  simp only [chat, h1, h2, List.length_nil, gt_iff_lt, Nat.lt_irrefl, if_false]

/-- Branch characterisation: tool branch with a successful second
completion. -/
theorem chat_tools_ok (st0 : AgentState) (db0 : Store) (env : ChatEnv) (u : String)
    (cm : CompletionMessage) (l : List ToolCall) (cm2 : CompletionMessage)
    (h1 : env.completion1 = Except.ok cm) (h2 : cm.tool_calls = some l)
    (hne : l ≠ []) (h3 : env.completion2 = Except.ok cm2) :
    chat st0 db0 env u =
      finishTurn env
        (runToolCalls env
          (afterAssistant env (afterUser st0 db0 env u).1 (afterUser st0 db0 env u).2
            (cm.content.getD "") l).1
          (afterAssistant env (afterUser st0 db0 env u).1 (afterUser st0 db0 env u).2
            (cm.content.getD "") l).2
          l 0).1
        (runToolCalls env
          (afterAssistant env (afterUser st0 db0 env u).1 (afterUser st0 db0 env u).2
            (cm.content.getD "") l).1
          (afterAssistant env (afterUser st0 db0 env u).1 (afterUser st0 db0 env u).2
            (cm.content.getD "") l).2
          l 0).2
        [chatReq1 st0 db0 env u,
         chatReq2 (runToolCalls env
          (afterAssistant env (afterUser st0 db0 env u).1 (afterUser st0 db0 env u).2
            (cm.content.getD "") l).1
          (afterAssistant env (afterUser st0 db0 env u).1 (afterUser st0 db0 env u).2
            (cm.content.getD "") l).2
          l 0).1]
        (cm2.content.getD "") := by
  have hpos : l.length > 0 := List.length_pos.mpr hne
  simp only [chat, h1, h2, h3, if_pos hpos]

/-- Branch characterisation: tool branch, second completion call throws. -/
theorem chat_tools_err2 (st0 : AgentState) (db0 : Store) (env : ChatEnv) (u : String)
    (cm : CompletionMessage) (l : List ToolCall) (e : String)
    (h1 : env.completion1 = Except.ok cm) (h2 : cm.tool_calls = some l)
    (hne : l ≠ []) (h3 : env.completion2 = Except.error e) :
    chat st0 db0 env u =
      { state := (runToolCalls env
          (afterAssistant env (afterUser st0 db0 env u).1 (afterUser st0 db0 env u).2
            (cm.content.getD "") l).1
          (afterAssistant env (afterUser st0 db0 env u).1 (afterUser st0 db0 env u).2
            (cm.content.getD "") l).2
          l 0).1
        store := (runToolCalls env
          (afterAssistant env (afterUser st0 db0 env u).1 (afterUser st0 db0 env u).2
            (cm.content.getD "") l).1
          (afterAssistant env (afterUser st0 db0 env u).1 (afterUser st0 db0 env u).2
            (cm.content.getD "") l).2
          l 0).2
        requests := [chatReq1 st0 db0 env u,
          chatReq2 (runToolCalls env
            (afterAssistant env (afterUser st0 db0 env u).1 (afterUser st0 db0 env u).2
              (cm.content.getD "") l).1
            (afterAssistant env (afterUser st0 db0 env u).1 (afterUser st0 db0 env u).2
              (cm.content.getD "") l).2
            l 0).1]
        result := Except.error e } := by
  have hpos : l.length > 0 := List.length_pos.mpr hne
  simp only [chat, h1, h2, h3, if_pos hpos]

theorem ensureThread_of_truthy (st0 : AgentState) (db0 : Store) (env : ChatEnv)
    (h : strTruthy st0.threadId) : ensureThread st0 db0 env = (st0, db0) := by
  simp [ensureThread, h]

theorem persistedFor_persistMessage (st : AgentState) (db : Store) (now : Nat)
    (m : Message) (tid : String) (h : st.threadId = some tid) :
    persistedFor (persistMessage st db now m) (some tid) =
      persistedFor db (some tid) ++ [rowOf (some tid) m] := by
  simp [persistedFor, persistMessage, List.filter_append, rowOf, h]

/-- The synchronisation invariant: the in-memory history, mapped through
the persisted-row shape for the active thread, is exactly the persisted
log of that thread; the thread id and system prompt are as given and the
set of thread rows is unchanged (relative to a reference store `dbR`). -/
def Synced (tid : String) (prompt : String) (dbR : Store)
    (st : AgentState) (db : Store) : Prop :=
  st.threadId = some tid ∧
  st.systemPrompt = prompt ∧
  persistedFor db (some tid) = st.conversationHistory.map (rowOf (some tid)) ∧
  db.agent_threads.map (fun t => t.id) = dbR.agent_threads.map (fun t => t.id)

theorem synced_persist_append (tid prompt : String) (dbR : Store)
    (st : AgentState) (db : Store) (now : Nat) (m : Message)
    (h : Synced tid prompt dbR st db) :
    Synced tid prompt dbR
      { st with conversationHistory := st.conversationHistory ++ [m] }
      (persistMessage { st with conversationHistory := st.conversationHistory ++ [m] }
        db now m) := by
  obtain ⟨h1, h2, h3, h4⟩ := h
  refine ⟨h1, h2, ?_, ?_⟩
  · rw [persistedFor_persistMessage _ _ _ _ _ (by simpa using h1)]
    simp [h3]
  · rw [persistMessage_thread_ids, h4]

theorem synced_afterUser (tid prompt : String) (dbR : Store) (st0 : AgentState)
    (db0 : Store) (env : ChatEnv) (u : String)
    (htr : strTruthy st0.threadId)
    (h : Synced tid prompt dbR st0 db0) :
    Synced tid prompt dbR (afterUser st0 db0 env u).1 (afterUser st0 db0 env u).2 := by
  have he := ensureThread_of_truthy st0 db0 env htr
  have := synced_persist_append tid prompt dbR st0 db0 env.userPersistNow
    (userMessageOf env u) h
  simpa [afterUser, he] using this

theorem synced_afterAssistant (tid prompt : String) (dbR : Store)
    (st : AgentState) (db : Store) (env : ChatEnv) (rc : String) (l : List ToolCall)
    (h : Synced tid prompt dbR st db) :
    Synced tid prompt dbR (afterAssistant env st db rc l).1
      (afterAssistant env st db rc l).2 := by
  have := synced_persist_append tid prompt dbR st db env.asstPersistNow
    (assistantToolMsgOf env rc l) h
  simpa [afterAssistant] using this

theorem synced_runToolCalls (tid prompt : String) (dbR : Store)
    (st : AgentState) (db : Store) (env : ChatEnv) (l : List ToolCall) (i : Nat)
    (h : Synced tid prompt dbR st db) :
    Synced tid prompt dbR (runToolCalls env st db l i).1
      (runToolCalls env st db l i).2 := by
  obtain ⟨h1, h2, h3, h4⟩ := h
  obtain ⟨r1, r2, r3, r4, r5⟩ := runToolCalls_spec env st db l i
  refine ⟨by rw [r2, h1], by rw [r3, h2], ?_, by rw [r5, h4]⟩
  rw [r1]
  have hfilter :
      ((toolMsgs env l i).map (rowOf st.threadId)).filter
        (fun r => r.thread_id == some tid) =
      (toolMsgs env l i).map (rowOf st.threadId) := by
    rw [List.filter_eq_self]
    intro a ha
    obtain ⟨m, _, rfl⟩ := List.mem_map.mp ha
    simp [rowOf, h1]
  calc persistedFor (runToolCalls env st db l i).2 (some tid)
      = persistedFor db (some tid) ++
          ((toolMsgs env l i).map (rowOf st.threadId)).filter
            (fun r => r.thread_id == some tid) := by
        simp [persistedFor, r4, List.filter_append]
    _ = st.conversationHistory.map (rowOf (some tid)) ++
          (toolMsgs env l i).map (rowOf (some tid)) := by
        rw [h3, hfilter, h1]
    _ = (st.conversationHistory ++ toolMsgs env l i).map (rowOf (some tid)) := by
        rw [List.map_append]

theorem synced_finishTurn (tid prompt : String) (dbR : Store)
    (st : AgentState) (db : Store) (env : ChatEnv) (reqs : List ChatRequest)
    (rc : String) (h : Synced tid prompt dbR st db) :
    Synced tid prompt dbR (finishTurn env st db reqs rc).state
      (finishTurn env st db reqs rc).store := by
  have := synced_persist_append tid prompt dbR st db env.finalPersistNow
    (finalMsgOf env rc) h
  simpa [finishTurn] using this

/-- One `chat()` turn preserves the synchronisation invariant — whether
the turn returns or throws, every history append is paired with exactly
one persisted row for the active thread. -/
theorem chat_sync (tid prompt : String) (dbR : Store) (st0 : AgentState)
    (db0 : Store) (env : ChatEnv) (u : String)
    (hne : tid ≠ "")
    (h : Synced tid prompt dbR st0 db0) :
    Synced tid prompt dbR (chat st0 db0 env u).state (chat st0 db0 env u).store := by
  have htr : strTruthy st0.threadId := by
    rw [h.1]; simp [strTruthy, hne]
  have hu := synced_afterUser tid prompt dbR st0 db0 env u htr h
  cases hc1 : env.completion1 with
  | error e =>
      rw [chat_err1 st0 db0 env u e hc1]
      exact hu
  | ok cm =>
    cases hc2 : cm.tool_calls with
    | none =>
        rw [chat_noTools st0 db0 env u cm hc1 hc2]
        exact synced_finishTurn _ _ _ _ _ _ _ _ hu
    | some l =>
      cases l with
      | nil =>
          rw [chat_emptyTools st0 db0 env u cm hc1 hc2]
          exact synced_finishTurn _ _ _ _ _ _ _ _ hu
      | cons tc rest =>
        have hlne : tc :: rest ≠ ([] : List ToolCall) := by simp
        have ha := synced_afterAssistant tid prompt dbR _ _ env (cm.content.getD "")
          (tc :: rest) hu
        have hr := synced_runToolCalls tid prompt dbR _ _ env (tc :: rest) 0 ha
        cases hc3 : env.completion2 with
        | error e =>
            rw [chat_tools_err2 st0 db0 env u cm (tc :: rest) e hc1 hc2 hlne hc3]
            exact hr
        | ok cm2 =>
            rw [chat_tools_ok st0 db0 env u cm (tc :: rest) cm2 hc1 hc2 hlne hc3]
            exact synced_finishTurn _ _ _ _ _ _ _ _ hr


/-- A sequence of turns preserves the synchronisation invariant. -/
theorem chatSeq_sync (tid prompt : String) (dbR : Store)
    (calls : List (ChatEnv × String)) :
    ∀ (st : AgentState) (db : Store), tid ≠ "" → Synced tid prompt dbR st db →
      Synced tid prompt dbR (chatSeq st db calls).1 (chatSeq st db calls).2 := by
  induction calls with
  | nil => intro st db _ h; exact h
  | cons c rest ih =>
    intro st db hne h
    obtain ⟨env, m⟩ := c
    exact ih (chat st db env m).state (chat st db env m).store hne
      (chat_sync tid prompt dbR st db env m hne h)

/-- A fresh thread starts synchronised: empty history, no persisted rows
for the new id. -/
theorem synced_createThread (st0 : AgentState) (db0 : Store) (newId : String)
    (now : Nat) (title : Option String)
    (hfresh : persistedFor db0 (some newId) = []) :
    Synced newId st0.systemPrompt (createThread st0 db0 newId now title).2
      (createThread st0 db0 newId now title).1
      (createThread st0 db0 newId now title).2 := by
  refine ⟨rfl, rfl, ?_, rfl⟩
  simpa [createThread, persistedFor] using hfresh

theorem rowToMessage_rowOf (tid : Option String) (m : Message)
    (h : m.toolCallId ≠ some "") : rowToMessage (rowOf tid m) = m := by
  obtain ⟨i, r, c, tcs, tcid, ca⟩ := m
  cases tcid with
  | none => simp [rowToMessage, rowOf, strNorm]
  | some s =>
    have hs : s ≠ "" := by
      intro hempty
      exact h (by simp [hempty])
    simp [rowToMessage, rowOf, strNorm, hs]

theorem messagesFor_eq_sort_persistedFor (db : Store) (tid : String) :
    messagesFor db tid =
      (persistedFor db (some tid)).mergeSort
        (fun a b => a.created_at ≤ b.created_at) := rfl

/-- C1: For every sequence of `chat()` calls on a fresh thread, the
in-memory history and the persisted message log for the active thread
agree exactly after each operation: after N calls the history length
equals the number of persisted messages for that thread. (Proved for all
sequences of turns, successful or not, since even a throwing turn pairs
each history append with exactly one persisted row.) -/
theorem history_length_eq_persisted_length
    (st0 : AgentState) (db0 : Store) (newId : String) (now : Nat)
    (title : Option String) (calls : List (ChatEnv × String))
    (hne : newId ≠ "")
    (hfresh : persistedFor db0 (some newId) = []) :
    (chatSeq (createThread st0 db0 newId now title).1
        (createThread st0 db0 newId now title).2 calls).1.conversationHistory.length =
      (persistedFor
        (chatSeq (createThread st0 db0 newId now title).1
          (createThread st0 db0 newId now title).2 calls).2 (some newId)).length := by
  have h := chatSeq_sync newId st0.systemPrompt
    (createThread st0 db0 newId now title).2 calls
    (createThread st0 db0 newId now title).1
    (createThread st0 db0 newId now title).2
    hne (synced_createThread st0 db0 newId now title hfresh)
  rw [h.2.2.1, List.length_map]

/-- A concrete environment for a turn whose completion returns plain text
and no tool calls. -/
def sampleEnvNoTools : ChatEnv :=
  { newThreadId := "T-new", newThreadNow := 5
    mcpServers := []
    userId := "m-u1", userNow := 10, userPersistNow := 11
    completion1 := Except.ok { content := some "hello there", tool_calls := none }
    asstId := "m-a1", asstNow := 12, asstPersistNow := 13
    toolId := fun i => "m-t" ++ toString i
    toolNow := fun i => 14 + i
    toolPersistNow := fun i => 15 + i
    toolOutcome := fun _ => Except.ok "\"ok\""
    completion2 := Except.ok { content := some "final answer", tool_calls := none }
    finalId := "m-f1", finalNow := 20, finalPersistNow := 21 }

def sampleState0 : AgentState :=
  { threadId := none, systemPrompt := "p", conversationHistory := [] }

def emptyStore : Store :=
  { agent_messages := [], agent_threads := [] }

theorem history_length_eq_persisted_length_witness :
    ("T-new" : String) ≠ "" ∧
    persistedFor emptyStore (some "T-new") = [] ∧
    (chatSeq (createThread sampleState0 emptyStore "T-new" 1 none).1
        (createThread sampleState0 emptyStore "T-new" 1 none).2
        [(sampleEnvNoTools, "hi")]).1.conversationHistory.length =
      (persistedFor
        (chatSeq (createThread sampleState0 emptyStore "T-new" 1 none).1
          (createThread sampleState0 emptyStore "T-new" 1 none).2
          [(sampleEnvNoTools, "hi")]).2 (some "T-new")).length :=
  ⟨by decide, rfl,
   history_length_eq_persisted_length sampleState0 emptyStore
     "T-new" 1 none [(sampleEnvNoTools, "hi")] (by decide) rfl⟩

/-- C8: After `createThread()` + N `chat()` calls, `loadThread(id)`
reconstructs a history identical, element by element and in order, to the
one that was appended — ties in `created_at` are broken by insertion
order (the stable sort keeps the persisted sequence). Hypotheses:
timestamps are non-decreasing along the history (`Date.now()` is
monotone) and no tool-call id is the empty string (an empty id would be
nulled by `toolCallId || null` on persist). -/
theorem loadThread_roundtrip_after_chats
    (st0 : AgentState) (db0 : Store) (newId : String) (now : Nat)
    (title : Option String) (calls : List (ChatEnv × String))
    (hne : newId ≠ "")
    (hfresh : persistedFor db0 (some newId) = [])
    (hmono : List.Pairwise (fun a b => a.createdAt ≤ b.createdAt)
      (chatSeq (createThread st0 db0 newId now title).1
        (createThread st0 db0 newId now title).2 calls).1.conversationHistory)
    (hids : ∀ m ∈ (chatSeq (createThread st0 db0 newId now title).1
        (createThread st0 db0 newId now title).2 calls).1.conversationHistory,
      m.toolCallId ≠ some "") :
    (loadThread
        (chatSeq (createThread st0 db0 newId now title).1
          (createThread st0 db0 newId now title).2 calls).1
        (chatSeq (createThread st0 db0 newId now title).1
          (createThread st0 db0 newId now title).2 calls).2 newId).2 = true ∧
    (loadThread
        (chatSeq (createThread st0 db0 newId now title).1
          (createThread st0 db0 newId now title).2 calls).1
        (chatSeq (createThread st0 db0 newId now title).1
          (createThread st0 db0 newId now title).2 calls).2 newId).1.conversationHistory =
      (chatSeq (createThread st0 db0 newId now title).1
        (createThread st0 db0 newId now title).2 calls).1.conversationHistory ∧
    (loadThread
        (chatSeq (createThread st0 db0 newId now title).1
          (createThread st0 db0 newId now title).2 calls).1
        (chatSeq (createThread st0 db0 newId now title).1
          (createThread st0 db0 newId now title).2 calls).2 newId).1.threadId =
      some newId := by
  obtain ⟨hTid, hPrompt, hRows, hThreads⟩ :=
    chatSeq_sync newId st0.systemPrompt
      (createThread st0 db0 newId now title).2 calls
      (createThread st0 db0 newId now title).1
      (createThread st0 db0 newId now title).2
      hne (synced_createThread st0 db0 newId now title hfresh)
  have hmem : newId ∈
      (chatSeq (createThread st0 db0 newId now title).1
        (createThread st0 db0 newId now title).2 calls).2.agent_threads.map
        (fun t => t.id) := by
    rw [hThreads]
    simp [createThread]
  obtain ⟨t, ht, htid⟩ := List.mem_map.mp hmem
  have hfilterlen :
      ¬ ((chatSeq (createThread st0 db0 newId now title).1
          (createThread st0 db0 newId now title).2 calls).2.agent_threads.filter
          (fun t => t.id == newId)).length = 0 := by
    intro hzero
    rw [List.length_eq_zero, List.filter_eq_nil_iff] at hzero
    exact hzero t ht (by simp [htid])
  have hms : messagesFor
      (chatSeq (createThread st0 db0 newId now title).1
        (createThread st0 db0 newId now title).2 calls).2 newId =
      (chatSeq (createThread st0 db0 newId now title).1
        (createThread st0 db0 newId now title).2 calls).1.conversationHistory.map
        (rowOf (some newId)) := by
    rw [messagesFor_eq_sort_persistedFor, hRows]
    exact List.mergeSort_of_sorted
      (List.pairwise_map.mpr (hmono.imp (fun h => by simpa [rowOf] using h)))
  have hmapback :
      ((chatSeq (createThread st0 db0 newId now title).1
        (createThread st0 db0 newId now title).2 calls).1.conversationHistory.map
        (rowOf (some newId))).map rowToMessage =
      (chatSeq (createThread st0 db0 newId now title).1
        (createThread st0 db0 newId now title).2 calls).1.conversationHistory := by
    rw [List.map_map]
    have hcong : ∀ m ∈ (chatSeq (createThread st0 db0 newId now title).1
        (createThread st0 db0 newId now title).2 calls).1.conversationHistory,
        (rowToMessage ∘ rowOf (some newId)) m = m :=
      fun m hm => rowToMessage_rowOf (some newId) m (hids m hm)
    rw [List.map_congr_left hcong, List.map_id']
  refine ⟨?_, ?_, ?_⟩
  · simp only [loadThread, if_neg hfilterlen]
  · simp only [loadThread, if_neg hfilterlen, hms, hmapback]
  · simp only [loadThread, if_neg hfilterlen]

theorem loadThread_roundtrip_after_chats_witness :
    ("T-new" : String) ≠ "" ∧
    persistedFor emptyStore (some "T-new") = [] ∧
    List.Pairwise (fun a b => a.createdAt ≤ b.createdAt)
      (chatSeq (createThread sampleState0 emptyStore "T-new" 1 none).1
        (createThread sampleState0 emptyStore "T-new" 1 none).2
        [(sampleEnvNoTools, "hi")]).1.conversationHistory ∧
    (∀ m ∈ (chatSeq (createThread sampleState0 emptyStore "T-new" 1 none).1
        (createThread sampleState0 emptyStore "T-new" 1 none).2
        [(sampleEnvNoTools, "hi")]).1.conversationHistory,
      m.toolCallId ≠ some "") ∧
    (loadThread
        (chatSeq (createThread sampleState0 emptyStore "T-new" 1 none).1
          (createThread sampleState0 emptyStore "T-new" 1 none).2
          [(sampleEnvNoTools, "hi")]).1
        (chatSeq (createThread sampleState0 emptyStore "T-new" 1 none).1
          (createThread sampleState0 emptyStore "T-new" 1 none).2
          [(sampleEnvNoTools, "hi")]).2 "T-new").1.conversationHistory =
      (chatSeq (createThread sampleState0 emptyStore "T-new" 1 none).1
        (createThread sampleState0 emptyStore "T-new" 1 none).2
        [(sampleEnvNoTools, "hi")]).1.conversationHistory :=
  ⟨by decide, rfl, by decide, by decide,
   (loadThread_roundtrip_after_chats sampleState0 emptyStore "T-new" 1 none
     [(sampleEnvNoTools, "hi")] (by decide) rfl (by decide) (by decide)).2.1⟩

/-- C6: `loadThread` on an id that names no existing thread returns
`false` and leaves the whole `ConversationState` — `activeThreadId`,
`systemPrompt` and `conversationHistory` — exactly as it was. -/
theorem loadThread_unknown_id_noop
    (st : AgentState) (db : Store) (threadId : String)
    (habsent : ∀ t ∈ db.agent_threads, t.id ≠ threadId) :
    loadThread st db threadId = (st, false) := by
  have hnil : (db.agent_threads.filter fun t => t.id == threadId) = [] :=
    List.filter_eq_nil_iff.mpr (fun t ht => by simp [habsent t ht])
  simp only [loadThread, hnil, List.length_nil, if_pos]

def sampleThreadRow : ThreadRow :=
  { id := "T1", title := none, created_at := 1, updated_at := 1 }

def sampleDb : Store :=
  { agent_messages := [], agent_threads := [sampleThreadRow] }

theorem loadThread_unknown_id_noop_witness :
    (∀ t ∈ sampleDb.agent_threads, t.id ≠ "unknown-id") ∧
    loadThread sampleState0 sampleDb "unknown-id" = (sampleState0, false) :=
  ⟨by decide, loadThread_unknown_id_noop sampleState0 sampleDb "unknown-id" (by decide)⟩

theorem toolMsg_mem_toolMsgs (env : ChatEnv) (l : List ToolCall) (i : Nat)
    (hi : i < l.length) :
    toolMsg env i (l.get ⟨i, hi⟩) ∈ toolMsgs env l 0 := by
  have h := toolMsgs_get? env l 0 i hi
  rw [Nat.zero_add] at h
  exact List.getElem?_mem h

/-- C2: A failing tool invocation does not abort the turn. If the first
completion returns tool calls and the `i`-th invocation throws with
message `e`, then (a) `chat()` still returns a `{response, threadId}`
value whose response is the second completion's text, (b) the `i`-th tool
message is the `tool`-role message carrying the structured payload
`{error: e}` with `toolCallId` equal to the failing call's id, and it is
(c) in the final history and (d) persisted in the store, and (e) the loop
went on to the second completion (two requests were issued). -/
theorem chat_tool_failure_contained
    (st0 : AgentState) (db0 : Store) (env : ChatEnv) (u : String)
    (cm : CompletionMessage) (l : List ToolCall) (cm2 : CompletionMessage)
    (i : Nat) (e : String)
    (h1 : env.completion1 = Except.ok cm) (h2 : cm.tool_calls = some l)
    (hne : l ≠ []) (hi : i < l.length)
    (herr : env.toolOutcome i = Except.error e)
    (h3 : env.completion2 = Except.ok cm2) :
    (chat st0 db0 env u).result =
      Except.ok { response := cm2.content.getD ""
                  threadId := (chat st0 db0 env u).state.threadId.getD "" } ∧
    toolMsg env i (l.get ⟨i, hi⟩) =
      { id := env.toolId i, role := Role.tool,
        content := jsonStringifyErrorObj e, toolCalls := none,
        toolCallId := some (l.get ⟨i, hi⟩).id, createdAt := env.toolNow i } ∧
    toolMsg env i (l.get ⟨i, hi⟩) ∈ (chat st0 db0 env u).state.conversationHistory ∧
    rowOf (chat st0 db0 env u).state.threadId (toolMsg env i (l.get ⟨i, hi⟩)) ∈
      (chat st0 db0 env u).store.agent_messages ∧
    (chat st0 db0 env u).requests.length = 2 := by
  rw [chat_tools_ok st0 db0 env u cm l cm2 h1 h2 hne h3]
  obtain ⟨r1, r2, r3, r4, r5⟩ := runToolCalls_spec env
    (afterAssistant env (afterUser st0 db0 env u).1 (afterUser st0 db0 env u).2
      (cm.content.getD "") l).1
    (afterAssistant env (afterUser st0 db0 env u).1 (afterUser st0 db0 env u).2
      (cm.content.getD "") l).2
    l 0
  have hmem := toolMsg_mem_toolMsgs env l i hi
  refine ⟨rfl, ?_, ?_, ?_, rfl⟩
  · simp [toolMsg, herr]
  · simp only [finishTurn, List.mem_append]
    left
    rw [r1]
    exact List.mem_append.mpr (Or.inr hmem)
  · simp only [finishTurn, persistMessage_messages, List.mem_append]
    left
    have hth : ({ (runToolCalls env
        (afterAssistant env (afterUser st0 db0 env u).1 (afterUser st0 db0 env u).2
          (cm.content.getD "") l).1
        (afterAssistant env (afterUser st0 db0 env u).1 (afterUser st0 db0 env u).2
          (cm.content.getD "") l).2
        l 0).1 with
        conversationHistory := (runToolCalls env
          (afterAssistant env (afterUser st0 db0 env u).1 (afterUser st0 db0 env u).2
            (cm.content.getD "") l).1
          (afterAssistant env (afterUser st0 db0 env u).1 (afterUser st0 db0 env u).2
            (cm.content.getD "") l).2
          l 0).1.conversationHistory ++ [finalMsgOf env (cm2.content.getD "")]
        } : AgentState).threadId =
        (afterAssistant env (afterUser st0 db0 env u).1 (afterUser st0 db0 env u).2
          (cm.content.getD "") l).1.threadId := r2
    rw [hth, r4]
    exact List.mem_append.mpr (Or.inr (List.mem_map.mpr ⟨_, hmem, rfl⟩))

def sampleToolCall : ToolCall :=
  { id := "call-1", name := "searchPatterns", arguments := "\x7b\x7d" }

/-- A concrete environment for a turn whose single tool call throws. -/
def sampleEnvToolFail : ChatEnv :=
  { newThreadId := "T-new", newThreadNow := 5
    mcpServers := []
    userId := "m-u1", userNow := 10, userPersistNow := 11
    completion1 := Except.ok { content := some "", tool_calls := some [sampleToolCall] }
    asstId := "m-a1", asstNow := 12, asstPersistNow := 13
    toolId := fun i => "m-t" ++ toString i
    toolNow := fun i => 14 + i
    toolPersistNow := fun i => 15 + i
    toolOutcome := fun _ => Except.error "Tool not found: searchPatterns"
    completion2 := Except.ok { content := some "I could not reach the tool."
                               tool_calls := none }
    finalId := "m-f1", finalNow := 20, finalPersistNow := 21 }

theorem chat_tool_failure_contained_witness :
    sampleEnvToolFail.completion1 =
      Except.ok { content := some "", tool_calls := some [sampleToolCall] } ∧
    ([sampleToolCall] : List ToolCall) ≠ [] ∧
    (0 : Nat) < [sampleToolCall].length ∧
    sampleEnvToolFail.toolOutcome 0 = Except.error "Tool not found: searchPatterns" ∧
    (chat sampleState0 sampleDb sampleEnvToolFail "find a pattern").result =
      Except.ok { response := "I could not reach the tool."
                  threadId := (chat sampleState0 sampleDb sampleEnvToolFail
                    "find a pattern").state.threadId.getD "" } :=
  ⟨rfl, by decide, by decide, rfl,
   (chat_tool_failure_contained sampleState0 sampleDb sampleEnvToolFail
      "find a pattern" { content := some "", tool_calls := some [sampleToolCall] }
      [sampleToolCall]
      { content := some "I could not reach the tool.", tool_calls := none }
      0 "Tool not found: searchPatterns" rfl rfl (by decide) (by decide)
      rfl rfl).1⟩

theorem toolMsgs_role (env : ChatEnv) (l : List ToolCall) (i : Nat) :
    ∀ m ∈ toolMsgs env l i, m.role = Role.tool := by
  induction l generalizing i with
  | nil => intro m hm; cases hm
  | cons tc rest ih =>
    intro m hm
    rw [toolMsgs_cons] at hm
    rcases List.mem_cons.mp hm with h | h
    · subst h; cases ho : env.toolOutcome i <;> simp [toolMsg, ho]
    · exact ih (i + 1) m h

/-- C3: With tool calls in the first completion, the persisted log for
the turn is exactly (user, assistant-with-toolCalls, one tool-result row
per call in the order the LLM returned them, final assistant); the `i`-th
tool message carries `toolCallId` equal to the `i`-th call's id — and so
does its persisted row when the id is non-empty. With exactly one call
this is the 4-message scenario of the spec. -/
theorem chat_tool_rows_in_order
    (st0 : AgentState) (db0 : Store) (env : ChatEnv) (u : String)
    (cm : CompletionMessage) (l : List ToolCall) (cm2 : CompletionMessage)
    (h1 : env.completion1 = Except.ok cm) (h2 : cm.tool_calls = some l)
    (hne : l ≠ []) (h3 : env.completion2 = Except.ok cm2)
    (hids : ∀ tc ∈ l, tc.id ≠ "") :
    (chat st0 db0 env u).store.agent_messages =
      (ensureThread st0 db0 env).2.agent_messages ++
      [rowOf (ensureThread st0 db0 env).1.threadId (userMessageOf env u),
       rowOf (ensureThread st0 db0 env).1.threadId
         (assistantToolMsgOf env (cm.content.getD "") l)] ++
      (toolMsgs env l 0).map (rowOf (ensureThread st0 db0 env).1.threadId) ++
      [rowOf (ensureThread st0 db0 env).1.threadId
         (finalMsgOf env (cm2.content.getD ""))] ∧
    (rowOf (ensureThread st0 db0 env).1.threadId (userMessageOf env u)).role =
      Role.user ∧
    (rowOf (ensureThread st0 db0 env).1.threadId
      (assistantToolMsgOf env (cm.content.getD "") l)).role = Role.assistant ∧
    (rowOf (ensureThread st0 db0 env).1.threadId
      (assistantToolMsgOf env (cm.content.getD "") l)).tool_calls = some l ∧
    (∀ m ∈ toolMsgs env l 0, m.role = Role.tool) ∧
    (rowOf (ensureThread st0 db0 env).1.threadId
      (finalMsgOf env (cm2.content.getD ""))).role = Role.assistant ∧
    (∀ i, (hi : i < l.length) →
      (toolMsgs env l 0)[i]? = some (toolMsg env i (l.get ⟨i, hi⟩)) ∧
      (toolMsg env i (l.get ⟨i, hi⟩)).toolCallId = some (l.get ⟨i, hi⟩).id ∧
      (rowOf (ensureThread st0 db0 env).1.threadId
        (toolMsg env i (l.get ⟨i, hi⟩))).tool_call_id = some (l.get ⟨i, hi⟩).id) := by
  obtain ⟨r1, r2, r3, r4, r5⟩ := runToolCalls_spec env
    (afterAssistant env (afterUser st0 db0 env u).1 (afterUser st0 db0 env u).2
      (cm.content.getD "") l).1
    (afterAssistant env (afterUser st0 db0 env u).1 (afterUser st0 db0 env u).2
      (cm.content.getD "") l).2
    l 0
  rw [chat_tools_ok st0 db0 env u cm l cm2 h1 h2 hne h3]
  refine ⟨?_, rfl, rfl, rfl, toolMsgs_role env l 0, rfl, ?_⟩
  · simp only [finishTurn, persistMessage_messages]
    rw [r2, r4]
    simp only [afterAssistant, afterUser, persistMessage_messages]
    simp [List.append_assoc]
  · intro i hi
    refine ⟨?_, ?_, ?_⟩
    · have h := toolMsgs_get? env l 0 i hi
      rwa [Nat.zero_add] at h
    · cases ho : env.toolOutcome i <;> simp [toolMsg, ho]
    · have hid := hids (l.get ⟨i, hi⟩) (List.get_mem l i hi)
      simp only [List.get_eq_getElem] at hid
      cases ho : env.toolOutcome i <;> simp [toolMsg, ho, rowOf, strNorm, hid]

/-- A concrete environment for a turn with one successful tool call. -/
def sampleEnvToolOk : ChatEnv :=
  { newThreadId := "T-new", newThreadNow := 5
    mcpServers := []
    userId := "m-u1", userNow := 10, userPersistNow := 11
    completion1 := Except.ok { content := some "Let me check."
                               tool_calls := some [sampleToolCall] }
    asstId := "m-a1", asstNow := 12, asstPersistNow := 13
    toolId := fun i => "m-t" ++ toString i
    toolNow := fun i => 14 + i
    toolPersistNow := fun i => 15 + i
    toolOutcome := fun _ => Except.ok "\x7b\"patterns\":[]\x7d"
    completion2 := Except.ok { content := some "Here is the design."
                               tool_calls := none }
    finalId := "m-f1", finalNow := 20, finalPersistNow := 21 }

theorem chat_tool_rows_in_order_witness :
    sampleEnvToolOk.completion1 =
      Except.ok { content := some "Let me check."
                  tool_calls := some [sampleToolCall] } ∧
    ([sampleToolCall] : List ToolCall) ≠ [] ∧
    sampleEnvToolOk.completion2 =
      Except.ok { content := some "Here is the design.", tool_calls := none } ∧
    (∀ tc ∈ ([sampleToolCall] : List ToolCall), tc.id ≠ "") ∧
    (chat sampleState0 sampleDb sampleEnvToolOk "design a login form").store.agent_messages =
      (ensureThread sampleState0 sampleDb sampleEnvToolOk).2.agent_messages ++
      [rowOf (ensureThread sampleState0 sampleDb sampleEnvToolOk).1.threadId
         (userMessageOf sampleEnvToolOk "design a login form"),
       rowOf (ensureThread sampleState0 sampleDb sampleEnvToolOk).1.threadId
         (assistantToolMsgOf sampleEnvToolOk
           ((some "Let me check." : Option String).getD "") [sampleToolCall])] ++
      (toolMsgs sampleEnvToolOk [sampleToolCall] 0).map
        (rowOf (ensureThread sampleState0 sampleDb sampleEnvToolOk).1.threadId) ++
      [rowOf (ensureThread sampleState0 sampleDb sampleEnvToolOk).1.threadId
         (finalMsgOf sampleEnvToolOk
           ((some "Here is the design." : Option String).getD ""))] :=
  ⟨rfl, by decide, rfl, by decide,
   (chat_tool_rows_in_order sampleState0 sampleDb sampleEnvToolOk
      "design a login form"
      { content := some "Let me check.", tool_calls := some [sampleToolCall] }
      [sampleToolCall]
      { content := some "Here is the design.", tool_calls := none }
      rfl rfl (by decide) rfl (by decide)).1⟩

/-- C4: In the tool branch exactly one additional completion is requested
(two requests in the whole turn); the second request carries no `tools`
and no `tool_choice` field, so no further tool-calling is offered in the
same user turn; and the second completion's text is the response
returned. -/
theorem chat_second_completion_no_tools
    (st0 : AgentState) (db0 : Store) (env : ChatEnv) (u : String)
    (cm : CompletionMessage) (l : List ToolCall) (cm2 : CompletionMessage)
    (h1 : env.completion1 = Except.ok cm) (h2 : cm.tool_calls = some l)
    (hne : l ≠ []) (h3 : env.completion2 = Except.ok cm2) :
    (chat st0 db0 env u).requests =
      [chatReq1 st0 db0 env u,
       chatReq2 (runToolCalls env
         (afterAssistant env (afterUser st0 db0 env u).1 (afterUser st0 db0 env u).2
           (cm.content.getD "") l).1
         (afterAssistant env (afterUser st0 db0 env u).1 (afterUser st0 db0 env u).2
           (cm.content.getD "") l).2
         l 0).1] ∧
    (∀ st4 : AgentState, (chatReq2 st4).tools = none ∧ (chatReq2 st4).tool_choice = none) ∧
    (chat st0 db0 env u).result =
      Except.ok { response := cm2.content.getD ""
                  threadId := (chat st0 db0 env u).state.threadId.getD "" } := by
  rw [chat_tools_ok st0 db0 env u cm l cm2 h1 h2 hne h3]
  exact ⟨rfl, fun st4 => ⟨rfl, rfl⟩, rfl⟩

theorem chat_second_completion_no_tools_witness :
    sampleEnvToolOk.completion1 =
      Except.ok { content := some "Let me check."
                  tool_calls := some [sampleToolCall] } ∧
    ([sampleToolCall] : List ToolCall) ≠ [] ∧
    sampleEnvToolOk.completion2 =
      Except.ok { content := some "Here is the design.", tool_calls := none } ∧
    (chat sampleState0 sampleDb sampleEnvToolOk "design a page").result =
      Except.ok { response := ((some "Here is the design." : Option String).getD "")
                  threadId := (chat sampleState0 sampleDb sampleEnvToolOk
                    "design a page").state.threadId.getD "" } :=
  ⟨rfl, by decide, rfl,
   (chat_second_completion_no_tools sampleState0 sampleDb sampleEnvToolOk
      "design a page"
      { content := some "Let me check.", tool_calls := some [sampleToolCall] }
      [sampleToolCall]
      { content := some "Here is the design.", tool_calls := none }
      rfl rfl (by decide) rfl).2.2⟩

/-- C5: A failing first completion propagates as a turn failure; the user
message appended at the start of the turn remains in the history and in
the persisted store, and no assistant message is persisted for the failed
call (the number of assistant-role rows is unchanged). -/
theorem chat_llm_failure_preserves_user_message
    (st0 : AgentState) (db0 : Store) (env : ChatEnv) (u : String) (e : String)
    (h : env.completion1 = Except.error e) :
    (chat st0 db0 env u).result = Except.error e ∧
    (chat st0 db0 env u).state.conversationHistory =
      (ensureThread st0 db0 env).1.conversationHistory ++ [userMessageOf env u] ∧
    (userMessageOf env u).role = Role.user ∧
    (userMessageOf env u).content = u ∧
    (chat st0 db0 env u).store.agent_messages =
      (ensureThread st0 db0 env).2.agent_messages ++
        [rowOf (ensureThread st0 db0 env).1.threadId (userMessageOf env u)] ∧
    ((chat st0 db0 env u).store.agent_messages.filter
        (fun r => r.role == Role.assistant)).length =
      ((ensureThread st0 db0 env).2.agent_messages.filter
        (fun r => r.role == Role.assistant)).length := by
  rw [chat_err1 st0 db0 env u e h]
  refine ⟨rfl, ?_, rfl, rfl, ?_, ?_⟩
  · simp [afterUser]
  · simp [afterUser, persistMessage_messages]
  · simp [afterUser, persistMessage_messages, List.filter_append, rowOf, userMessageOf]

/-- A concrete environment whose first completion call throws. -/
def sampleEnvLlmFail : ChatEnv :=
  { newThreadId := "T-new", newThreadNow := 5
    mcpServers := []
    userId := "m-u1", userNow := 10, userPersistNow := 11
    completion1 := Except.error "upstream 500"
    asstId := "m-a1", asstNow := 12, asstPersistNow := 13
    toolId := fun i => "m-t" ++ toString i
    toolNow := fun i => 14 + i
    toolPersistNow := fun i => 15 + i
    toolOutcome := fun _ => Except.ok "\"ok\""
    completion2 := Except.error "upstream 500"
    finalId := "m-f1", finalNow := 20, finalPersistNow := 21 }

theorem chat_llm_failure_preserves_user_message_witness :
    sampleEnvLlmFail.completion1 = Except.error "upstream 500" ∧
    (chat sampleState0 sampleDb sampleEnvLlmFail "hello").result =
      Except.error "upstream 500" ∧
    (chat sampleState0 sampleDb sampleEnvLlmFail "hello").state.conversationHistory =
      (ensureThread sampleState0 sampleDb sampleEnvLlmFail).1.conversationHistory ++
        [userMessageOf sampleEnvLlmFail "hello"] :=
  ⟨rfl,
   (chat_llm_failure_preserves_user_message sampleState0 sampleDb sampleEnvLlmFail
     "hello" "upstream 500" rfl).1,
   (chat_llm_failure_preserves_user_message sampleState0 sampleDb sampleEnvLlmFail
     "hello" "upstream 500" rfl).2.1⟩

/-- A stored `tool`-role message without a `toolCallId` (the shape C7 is
about). -/
def orphanToolMsg : Message :=
  { id := "m-x", role := Role.tool, content := "\x7b\"ok\":true\x7d",
    toolCalls := none, toolCallId := none, createdAt := 9 }

def stateWithOrphan : AgentState :=
  { threadId := some "T1", systemPrompt := "p",
    conversationHistory := [orphanToolMsg] }

/-- C7 counterexample: with a `tool`-role message lacking `toolCallId` in
the history, projection does NOT fail — there is no `DataIntegrityError`
anywhere in the code. The orphan message falls through to the plain
role/content branch (a different shape, without `tool_call_id`), it
appears in the actual request payload, and the turn completes
successfully. -/
theorem projection_no_integrity_error_counterexample :
    projectMessage orphanToolMsg =
      ChatParam.plain Role.tool "\x7b\"ok\":true\x7d" ∧
    (chatReq1 stateWithOrphan sampleDb sampleEnvNoTools "hi").messages =
      [ChatParam.system "p",
       ChatParam.plain Role.tool "\x7b\"ok\":true\x7d",
       ChatParam.plain Role.user "hi"] ∧
    (chat stateWithOrphan sampleDb sampleEnvNoTools "hi").result.isOk = true := by
  refine ⟨by decide, by decide, ?_⟩
  rw [chat_noTools stateWithOrphan sampleDb sampleEnvNoTools "hi"
    { content := some "hello there", tool_calls := none } rfl rfl]
  rfl

/-- C7 amended: a `tool`-role message whose `toolCallId` is null/absent
(or empty) is not rejected: the projection is total and emits it as a
plain role/content entry — keeping its `tool` role but carrying no
`tool_call_id` — rather than failing the turn with a
`DataIntegrityError`; nothing is dropped (projection maps every history
entry, plus the leading system prompt). -/
theorem tool_message_without_callId_projected_plain
    (m : Message) (hrole : m.role = Role.tool)
    (hid : strTruthy m.toolCallId = false) :
    projectMessage m = ChatParam.plain Role.tool m.content ∧
    ∀ (prompt : String) (h : List Message),
      (projectHistory prompt h).length = h.length + 1 := by
  constructor
  · have h1 : ¬ (m.role = Role.tool ∧ strTruthy m.toolCallId) := by
      rintro ⟨-, h2⟩
      rw [hid] at h2
      cases h2
    have h2 : ¬ (m.role = Role.assistant ∧ m.toolCalls.isSome) := by
      rintro ⟨ha, -⟩
      rw [hrole] at ha
      cases ha
    rw [projectMessage, if_neg h1, if_neg h2, hrole]
  · intro prompt h
    simp [projectHistory]

theorem tool_message_without_callId_projected_plain_witness :
    orphanToolMsg.role = Role.tool ∧
    strTruthy orphanToolMsg.toolCallId = false ∧
    projectMessage orphanToolMsg = ChatParam.plain Role.tool orphanToolMsg.content :=
  ⟨rfl, rfl,
   (tool_message_without_callId_projected_plain orphanToolMsg rfl rfl).1⟩

theorem chat_ok_of_completions (st0 : AgentState) (db0 : Store) (env : ChatEnv)
    (u : String) (cm cm2 : CompletionMessage)
    (h1 : env.completion1 = Except.ok cm) (h3 : env.completion2 = Except.ok cm2) :
    ∃ r, (chat st0 db0 env u).result = Except.ok r := by
  cases hc2 : cm.tool_calls with
  | none =>
      rw [chat_noTools st0 db0 env u cm h1 hc2]
      exact ⟨_, rfl⟩
  | some l =>
    cases l with
    | nil =>
        rw [chat_emptyTools st0 db0 env u cm h1 hc2]
        exact ⟨_, rfl⟩
    | cons tc rest =>
        rw [chat_tools_ok st0 db0 env u cm (tc :: rest) cm2 h1 hc2 (by simp) h3]
        exact ⟨_, rfl⟩

/-- C9: The exposed chat endpoint rejects an absent or empty `message`
with an error (HTTP 400), and for every non-empty message (given the two
completion calls succeed) it returns a `{response, threadId}` value. -/
theorem postApiChat_empty_rejected
    (body : ChatApiRequest) (st : AgentState) (db : Store) (env : ChatEnv)
    (cm cm2 : CompletionMessage)
    (h1 : env.completion1 = Except.ok cm) (h3 : env.completion2 = Except.ok cm2) :
    ((body.message = none ∨ body.message = some "") →
      postApiChat body st db env = ApiChatResponse.err "Message is required" 400) ∧
    (∀ m, body.message = some m → m ≠ "" →
      ∃ resp tid, postApiChat body st db env = ApiChatResponse.ok resp tid) := by
  constructor
  · intro hempty
    have hf : strTruthy body.message = false := by
      rcases hempty with h | h <;> simp [h, strTruthy]
    simp [postApiChat, hf]
  · intro m hm hne
    have htr : strTruthy body.message = true := by simp [hm, strTruthy, hne]
    obtain ⟨r, hr⟩ := chat_ok_of_completions
      (if strTruthy body.threadId then (loadThread st db (body.threadId.getD "")).1
       else st)
      db env (body.message.getD "") cm cm2 h1 h3
    refine ⟨r.response, r.threadId, ?_⟩
    simp only [postApiChat, htr, Bool.true_eq_false, not_true_eq_false, if_false, hr]

theorem postApiChat_empty_rejected_witness :
    sampleEnvNoTools.completion1 =
      Except.ok { content := some "hello there", tool_calls := none } ∧
    sampleEnvNoTools.completion2 =
      Except.ok { content := some "final answer", tool_calls := none } ∧
    postApiChat { message := some "", threadId := none } sampleState0 sampleDb
      sampleEnvNoTools = ApiChatResponse.err "Message is required" 400 ∧
    (∃ resp tid,
      postApiChat { message := some "hello", threadId := none } sampleState0
        sampleDb sampleEnvNoTools = ApiChatResponse.ok resp tid) :=
  ⟨rfl, rfl,
   (postApiChat_empty_rejected { message := some "", threadId := none }
      sampleState0 sampleDb sampleEnvNoTools
      { content := some "hello there", tool_calls := none }
      { content := some "final answer", tool_calls := none } rfl rfl).1
      (Or.inr rfl),
   (postApiChat_empty_rejected { message := some "hello", threadId := none }
      sampleState0 sampleDb sampleEnvNoTools
      { content := some "hello there", tool_calls := none }
      { content := some "final answer", tool_calls := none } rfl rfl).2
      "hello" rfl (by decide)⟩

/-- C10: `chat()` substitutes the empty string for a null/absent
completion content: in both the no-tool branch and the
second-completion branch the returned response is
`content.getD ""` (a string, `""` when the content was `none`), and the
final assistant row persisted last in the store carries that same string
content. -/
theorem chat_null_content_becomes_empty_string
    (st0 : AgentState) (db0 : Store) (env : ChatEnv) (u : String) :
    (∀ cm, env.completion1 = Except.ok cm → cm.tool_calls = none →
      (chat st0 db0 env u).result =
        Except.ok { response := cm.content.getD ""
                    threadId := (chat st0 db0 env u).state.threadId.getD "" } ∧
      (chat st0 db0 env u).store.agent_messages.getLast? =
        some (rowOf (chat st0 db0 env u).state.threadId
          (finalMsgOf env (cm.content.getD ""))) ∧
      (finalMsgOf env (cm.content.getD "")).content = cm.content.getD "" ∧
      (finalMsgOf env (cm.content.getD "")).role = Role.assistant) ∧
    (∀ cm l cm2, env.completion1 = Except.ok cm → cm.tool_calls = some l →
      l ≠ [] → env.completion2 = Except.ok cm2 →
      (chat st0 db0 env u).result =
        Except.ok { response := cm2.content.getD ""
                    threadId := (chat st0 db0 env u).state.threadId.getD "" } ∧
      (chat st0 db0 env u).store.agent_messages.getLast? =
        some (rowOf (chat st0 db0 env u).state.threadId
          (finalMsgOf env (cm2.content.getD ""))) ∧
      (finalMsgOf env (cm2.content.getD "")).content = cm2.content.getD "" ∧
      (finalMsgOf env (cm2.content.getD "")).role = Role.assistant) := by
  constructor
  · intro cm h1 h2
    rw [chat_noTools st0 db0 env u cm h1 h2]
    refine ⟨rfl, ?_, rfl, rfl⟩
    simp only [finishTurn, persistMessage_messages]
    exact List.getLast?_concat _
  · intro cm l cm2 h1 h2 hne h3
    rw [chat_tools_ok st0 db0 env u cm l cm2 h1 h2 hne h3]
    refine ⟨rfl, ?_, rfl, rfl⟩
    simp only [finishTurn, persistMessage_messages]
    exact List.getLast?_concat _

/-- A concrete environment whose completion succeeds with `null` content
and no tool calls. -/
def sampleEnvNullContent : ChatEnv :=
  { newThreadId := "T-new", newThreadNow := 5
    mcpServers := []
    userId := "m-u1", userNow := 10, userPersistNow := 11
    completion1 := Except.ok { content := none, tool_calls := none }
    asstId := "m-a1", asstNow := 12, asstPersistNow := 13
    toolId := fun i => "m-t" ++ toString i
    toolNow := fun i => 14 + i
    toolPersistNow := fun i => 15 + i
    toolOutcome := fun _ => Except.ok "\"ok\""
    completion2 := Except.ok { content := none, tool_calls := none }
    finalId := "m-f1", finalNow := 20, finalPersistNow := 21 }

theorem chat_null_content_becomes_empty_string_witness :
    sampleEnvNullContent.completion1 =
      Except.ok { content := none, tool_calls := none } ∧
    ({ content := none, tool_calls := none } : CompletionMessage).tool_calls = none ∧
    (chat sampleState0 sampleDb sampleEnvNullContent "hi").result =
      Except.ok { response := ""
                  threadId := (chat sampleState0 sampleDb sampleEnvNullContent
                    "hi").state.threadId.getD "" } :=
  ⟨rfl, rfl,
   ((chat_null_content_becomes_empty_string sampleState0 sampleDb
      sampleEnvNullContent "hi").1
      { content := none, tool_calls := none } rfl rfl).1⟩
